import Mathlib

/-!
Verification development for the AccessUiFhe repository.

The core contract (AccessibilityUI) stores encrypted accessibility
preferences per user and derives UI adjustment parameters from them with
homomorphic 32-bit unsigned arithmetic.  The frontend (App.tsx) maintains a
generic key-to-blob catalog with a key index stored under the fixed key
"preference_keys".

The embedding below translates the contract functions and the frontend
catalog logic.  Encrypted 32-bit integers are modelled by their plaintext
values (natural numbers below 2 ^ 32), following the plaintext-transparent
stub backend the specification itself prescribes for testing; an absent
record (uninitialized ciphertext handles in storage) is modelled by none.
A reverted transaction is modelled by an error result that leaves the
pre-state in force (the exec function below).
-/

/-- Modulus of the 32-bit unsigned encrypted integers (euint32). -/
def M32 : Nat := 4294967296

/-- Homomorphic addition on euint32 values: wraps modulo 2 ^ 32. -/
def fheAdd (a b : Nat) : Nat := (a + b) % M32

/-- Homomorphic subtraction on euint32 values: wraps modulo 2 ^ 32. -/
def fheSub (a b : Nat) : Nat := (a + (M32 - b % M32)) % M32

/-- Homomorphic division of a euint32 value by a plaintext constant. -/
def fheDiv (a c : Nat) : Nat := a / c

/-- Struct EncryptedPreferences of the contract (plaintext view of the four
euint32 fields plus the lastUpdated timestamp). -/
structure EncryptedPreferences where
  visionSettings : Nat
  hearingSettings : Nat
  mobilitySettings : Nat
  cognitiveSettings : Nat
  lastUpdated : Nat
deriving DecidableEq

/-- Struct UIAdjustment of the contract (plaintext view of the four euint32
fields plus the lastCalculated timestamp). -/
structure UIAdjustment where
  fontSize : Nat
  contrastRatio : Nat
  volumeLevel : Nat
  animationSpeed : Nat
  lastCalculated : Nat
deriving DecidableEq

/-- The constant baseline written once by the constructor:
fontSize 16, contrastRatio 4, volumeLevel 50, animationSpeed 3. -/
structure DefaultAdj where
  fontSize : Nat
  contrastRatio : Nat
  volumeLevel : Nat
  animationSpeed : Nat
deriving DecidableEq

/-- Value of defaultAdjustment set in the constructor and never mutated. -/
def defaultAdjustment : DefaultAdj := ⟨16, 4, 50, 3⟩

/-- Contract storage: the two per-owner mappings.  A missing entry of a
Solidity mapping holds uninitialized handles, modelled by none. -/
structure State where
  userPreferences : Nat → Option EncryptedPreferences
  uiAdjustments : Nat → Option UIAdjustment

/-- Failure outcomes of the public operations.  A require failure in the
contract reverts the transaction; the constructors name the taxonomy of the
specification. -/
inductive ContractError where
  | preconditionFailed
  | invalidProof
  | malformed
  | unknownRequest
  | notFound
deriving DecidableEq

/-- Events emitted by the contract. -/
inductive Event where
  | PreferencesUpdated (user time : Nat)
  | AdjustmentCalculated (user time : Nat)
  | UIAdjusted (user time : Nat)
deriving DecidableEq

/-- Function updatePreferences: replaces the sender record wholesale with
the four supplied ciphertexts and a fresh timestamp, then emits
PreferencesUpdated. -/
def updatePreferences (s : State) (sender vision hearing mobility cognitive now : Nat) :
    Except ContractError (State × List Event) :=
  .ok ({ s with
          userPreferences := fun a =>
            if a = sender then
              some ⟨vision % M32, hearing % M32, mobility % M32, cognitive % M32, now⟩
            else s.userPreferences a },
        [.PreferencesUpdated sender now])

/-- Function calculateAdjustments: requires the sender preference record to
be initialized, derives the four adjustment ciphertexts from it and the
defaultAdjustment baseline, stores them and emits AdjustmentCalculated. -/
def calculateAdjustments (s : State) (sender now : Nat) :
    Except ContractError (State × List Event) :=
  match s.userPreferences sender with
  | none => .error .preconditionFailed
  | some p =>
    let fontSize := fheAdd defaultAdjustment.fontSize (fheDiv p.visionSettings 10)
    let contrastRatio := fheAdd defaultAdjustment.contrastRatio (fheDiv p.visionSettings 5)
    let volumeLevel := fheAdd defaultAdjustment.volumeLevel (fheDiv p.hearingSettings 2)
    let animationSpeed := fheSub defaultAdjustment.animationSpeed (fheDiv p.cognitiveSettings 10)
    .ok ({ s with
            uiAdjustments := fun a =>
              if a = sender then
                some ⟨fontSize, contrastRatio, volumeLevel, animationSpeed, now⟩
              else s.uiAdjustments a },
          [.AdjustmentCalculated sender now])

/-- Function applyUIAdjustments: requires an adjustment record and emits
UIAdjusted; no storage is touched. -/
def applyUIAdjustments (s : State) (sender now : Nat) :
    Except ContractError (State × List Event) :=
  match s.uiAdjustments sender with
  | none => .error .preconditionFailed
  | some _ => .ok (s, [.UIAdjusted sender now])

/-- Function requestAdjustmentDecryption: requires an adjustment record and
dispatches the four handles to the external decryption oracle; the contract
itself records nothing. -/
def requestAdjustmentDecryption (s : State) (sender : Nat) :
    Except ContractError (State × List Event) :=
  match s.uiAdjustments sender with
  | none => .error .preconditionFailed
  | some _ => .ok (s, [])

/-- Decoding of the cleartext payload by abi.decode into four uint32
values: the payload must consist of exactly four words, each below 2 ^ 32. -/
def decode4 (cleartexts : List Nat) : Option (Nat × Nat × Nat × Nat) :=
  match cleartexts with
  | [a, b, c, d] =>
      if a < M32 ∧ b < M32 ∧ c < M32 ∧ d < M32 then some (a, b, c, d) else none
  | _ => none

/-- Function handleDecryptedAdjustments: FHE.checkSignatures reverts when
the proof does not verify (modelled by the proofValid flag), abi.decode
reverts on a malformed payload, and on success the function only emits
UIAdjusted: no storage is written. -/
def handleDecryptedAdjustments (s : State) (requestId : Nat) (cleartexts : List Nat)
    (proofValid : Bool) (sender now : Nat) : Except ContractError (State × List Event) :=
  if proofValid then
    match decode4 cleartexts with
    | some _ => .ok (s, [.UIAdjusted sender now])
    | none => .error .malformed
  else .error .invalidProof

/-- Function resetPreferences: deletes both mapping entries of the sender
and emits PreferencesUpdated; deleting an absent entry is a no-op. -/
def resetPreferences (s : State) (sender now : Nat) :
    Except ContractError (State × List Event) :=
  .ok ({ userPreferences := fun a => if a = sender then none else s.userPreferences a,
         uiAdjustments := fun a => if a = sender then none else s.uiAdjustments a },
        [.PreferencesUpdated sender now])

/-- View getAdjustments: returns the raw mapping entry for the user; for a
user never written, a Solidity mapping yields the zero struct
(uninitialized handles), so the view returns all zeros instead of failing. -/
def getAdjustments (s : State) (user : Nat) : Nat × Nat × Nat × Nat × Nat :=
  match s.uiAdjustments user with
  | some a => (a.fontSize, a.contrastRatio, a.volumeLevel, a.animationSpeed, a.lastCalculated)
  | none => (0, 0, 0, 0, 0)

/-- The public operations of the contract, for stating invariants over
arbitrary interleavings. -/
inductive Op where
  | submitOp (sender vision hearing mobility cognitive now : Nat)
  | calcOp (sender now : Nat)
  | applyOp (sender now : Nat)
  | requestOp (sender : Nat)
  | callbackOp (requestId : Nat) (cleartexts : List Nat) (proofValid : Bool) (sender now : Nat)
  | resetOp (sender now : Nat)

/-- One transaction attempt. -/
def step (s : State) : Op → Except ContractError (State × List Event)
  | .submitOp sender v h m c now => updatePreferences s sender v h m c now
  | .calcOp sender now => calculateAdjustments s sender now
  | .applyOp sender now => applyUIAdjustments s sender now
  | .requestOp sender => requestAdjustmentDecryption s sender
  | .callbackOp rid cs pv sender now => handleDecryptedAdjustments s rid cs pv sender now
  | .resetOp sender now => resetPreferences s sender now

/-- Transaction semantics: a reverted (error) transaction leaves the chain
state unchanged. -/
def exec (s : State) (op : Op) : State :=
  match step s op with
  | .ok (s2, _) => s2
  | .error _ => s

/-- An adjustment record exists for an owner only if a preference record
exists for the same owner. -/
def StoreInv (s : State) : Prop :=
  ∀ a, (s.uiAdjustments a).isSome → (s.userPreferences a).isSome

/-- The state with both mappings empty (a fresh deployment). -/
def emptyState : State := ⟨fun _ => none, fun _ => none⟩

/-!
Frontend generic record catalog (App.tsx).  The data contract behind
setData and getData is a plain key-to-bytes store; the index maintenance is
performed by the frontend function submitPreference: it writes the record
blob, reads the index blob under "preference_keys", parses it (an absent or
unparsable blob yields the empty key list), pushes the new id with no
membership check, and re-stores the index.
-/

/-- A stored blob: either raw bytes or the UTF-8 JSON array of keys that
the index blob holds (the encoding is injective, so the parse step is
modelled by the constructor). -/
inductive Blob where
  | raw (bytes : List Nat)
  | keyArr (ks : List String)
deriving DecidableEq

/-- Modelled from the spec: the generic data contract behind setData and
getData is not under src (only its caller App.tsx is); it is a keyed blob
store, where reading a key never written yields empty bytes (none), as the
length check in App.tsx loadPreferences expects. -/
structure Catalog where
  store : String → Option Blob

/-- Read a blob; an absent key yields none (empty bytes). -/
def getData (c : Catalog) (k : String) : Option Blob := c.store k

/-- Write a blob under a key, overwriting. -/
def setData (c : Catalog) (k : String) (b : Blob) : Catalog :=
  ⟨fun k2 => if k2 = k then some b else c.store k2⟩

/-- JSON.parse step of App.tsx on the index blob: an absent index or a
parse failure leaves the key list empty. -/
def parseKeys : Option Blob → List String
  | some (.keyArr ks) => ks
  | _ => []

/-- The catalog write path of App.tsx submitPreference: store the record
blob under preference_ followed by the id, then read-modify-write the index
blob under "preference_keys", pushing the id unconditionally. -/
def putBlob (c : Catalog) (prefId : String) (bytes : List Nat) : Catalog :=
  let c1 := setData c ("preference_" ++ prefId) (.raw bytes)
  let ks := parseKeys (getData c1 "preference_keys")
  setData c1 "preference_keys" (.keyArr (ks ++ [prefId]))

/-- The catalog with no blob stored. -/
def emptyCatalog : Catalog := ⟨fun _ => none⟩

/-!  Concrete states used by witnesses and counterexamples.  -/

/-- A state whose owner 1 has submitted the concrete scenario preferences
vision 40, hearing 60, mobility 0, cognitive 30. -/
def stateC1 : State :=
  ⟨fun a => if a = 1 then some ⟨40, 60, 0, 30, 0⟩ else none, fun _ => none⟩

/-- A state whose owner 2 has submitted cognitive 50, driving the
animationSpeed subtraction into underflow. -/
def stateC2 : State :=
  ⟨fun a => if a = 2 then some ⟨0, 0, 0, 50, 0⟩ else none, fun _ => none⟩

/-- A state whose owner 1 has both a preference record and a calculated
adjustment record. -/
def stateFull : State :=
  ⟨fun a => if a = 1 then some ⟨40, 60, 0, 30, 0⟩ else none,
   fun a => if a = 1 then some ⟨20, 12, 80, 0, 0⟩ else none⟩

/-- A state like stateFull whose owner differs from stateFull only in the
mobility setting (99 instead of 0). -/
def stateMob : State :=
  ⟨fun a => if a = 3 then some ⟨40, 60, 99, 30, 0⟩ else none, fun _ => none⟩

/-- Claim C1: for every owner with an existing preference record,
calculateAdjustments stores a UIAdjustmentRecord whose fields are computed
from the current preference record and the fixed defaultAdjustment baseline
alone: fontSize is 16 plus vision divided by 10, contrastRatio is 4 plus
vision divided by 5, volumeLevel is 50 plus hearing divided by 2, and
animationSpeed is 3 minus cognitive divided by 10 in the 32-bit unsigned
arithmetic of the encrypted integers (exact whenever no underflow occurs,
in particular equal to 3 minus the quotient when the quotient is at most
3); at vision 40, hearing 60, mobility 0, cognitive 30 the fields are 20,
12, 80 and 0. -/
theorem calculateAdjustments_formula_C1 (s : State) (sender now : Nat)
    (p : EncryptedPreferences)
    (hp : s.userPreferences sender = some p)
    (hv : p.visionSettings < M32) (hh : p.hearingSettings < M32)
    (hc : p.cognitiveSettings < M32) :
    ∃ s2, calculateAdjustments s sender now = .ok (s2, [.AdjustmentCalculated sender now]) ∧
      s2.uiAdjustments sender =
        some ⟨16 + p.visionSettings / 10, 4 + p.visionSettings / 5,
              50 + p.hearingSettings / 2,
              (3 + (M32 - p.cognitiveSettings / 10)) % M32, now⟩ ∧
      s2.userPreferences = s.userPreferences ∧
      (p.cognitiveSettings / 10 ≤ 3 →
        (3 + (M32 - p.cognitiveSettings / 10)) % M32 = 3 - p.cognitiveSettings / 10) := by
  unfold calculateAdjustments
  rw [hp]
  refine ⟨_, rfl, ?_, rfl, ?_⟩
  · simp [fheAdd, fheSub, fheDiv, defaultAdjustment, M32] at hv hh hc ⊢
    omega
  · intro hle
    unfold M32 at *
    omega

/-- Witness for C1: the concrete scenario vision 40, hearing 60, mobility
0, cognitive 30 yields fontSize 20, contrastRatio 12, volumeLevel 80,
animationSpeed 0. -/
theorem calculateAdjustments_formula_C1_witness :
    ∃ s2, calculateAdjustments stateC1 1 5 = .ok (s2, [.AdjustmentCalculated 1 5]) ∧
      s2.uiAdjustments 1 = some ⟨20, 12, 80, 0, 5⟩ := by
  obtain ⟨s2, h1, h2, -, -⟩ :=
    calculateAdjustments_formula_C1 stateC1 1 5 ⟨40, 60, 0, 30, 0⟩ rfl
      (by decide) (by decide) (by decide)
  refine ⟨s2, h1, ?_⟩
  rw [h2]
  decide

/-- Claim C2: for every owner whose cognitive quotient exceeds 3,
calculateAdjustments does not clamp animationSpeed at zero: the stored
animationSpeed is the 32-bit unsigned wrap of 3 minus the quotient, namely
the integer 3 minus cognitive divided by 10, taken modulo 2 ^ 32, and it is
nonzero. -/
theorem calculateAdjustments_underflow_C2 (s : State) (sender now : Nat)
    (p : EncryptedPreferences)
    (hp : s.userPreferences sender = some p)
    (hc : p.cognitiveSettings < M32)
    (hgt : 3 < p.cognitiveSettings / 10) :
    ∃ s2, calculateAdjustments s sender now = .ok (s2, [.AdjustmentCalculated sender now]) ∧
      ∃ adj, s2.uiAdjustments sender = some adj ∧
        adj.animationSpeed = 3 + (M32 - p.cognitiveSettings / 10) ∧
        (adj.animationSpeed : Int) = (3 - (p.cognitiveSettings / 10 : Nat)) % (4294967296 : Int) ∧
        adj.animationSpeed ≠ 0 := by
  unfold calculateAdjustments
  rw [hp]
  refine ⟨_, rfl, ?_⟩
  refine ⟨⟨fheAdd defaultAdjustment.fontSize (fheDiv p.visionSettings 10),
          fheAdd defaultAdjustment.contrastRatio (fheDiv p.visionSettings 5),
          fheAdd defaultAdjustment.volumeLevel (fheDiv p.hearingSettings 2),
          fheSub defaultAdjustment.animationSpeed (fheDiv p.cognitiveSettings 10), now⟩,
        by simp, ?_, ?_, ?_⟩
  · simp [fheSub, fheDiv, defaultAdjustment, M32] at hc ⊢
    omega
  · simp [fheSub, fheDiv, defaultAdjustment, M32] at hc ⊢
    omega
  · simp [fheSub, fheDiv, defaultAdjustment, M32] at hc ⊢
    omega

/-- Witness for C2: cognitive 50 gives quotient 5 and a stored
animationSpeed of 4294967294, the wrap of the integer minus 2. -/
theorem calculateAdjustments_underflow_C2_witness :
    ∃ s2, calculateAdjustments stateC2 2 7 = .ok (s2, [.AdjustmentCalculated 2 7]) ∧
      ∃ adj, s2.uiAdjustments 2 = some adj ∧ adj.animationSpeed = 4294967294 := by
  obtain ⟨s2, h1, adj, h2, h3, -, -⟩ :=
    calculateAdjustments_underflow_C2 stateC2 2 7 ⟨0, 0, 0, 50, 0⟩ rfl (by decide) (by decide)
  exact ⟨s2, h1, adj, h2, by rw [h3]; decide⟩

/-- Claim C3: for an owner with no preference record, calculateAdjustments
reverts with the precondition failure and the transaction leaves the store
unchanged. -/
theorem calculateAdjustments_requires_prefs_C3 (s : State) (sender now : Nat)
    (hp : s.userPreferences sender = none) :
    calculateAdjustments s sender now = .error .preconditionFailed ∧
      exec s (.calcOp sender now) = s := by
  have h : calculateAdjustments s sender now = .error .preconditionFailed := by
    unfold calculateAdjustments
    rw [hp]
  refine ⟨h, ?_⟩
  simp only [exec, step]
  rw [h]

/-- Witness for C3: on a fresh deployment, calculateAdjustments fails with
the precondition error and the state is untouched. -/
theorem calculateAdjustments_requires_prefs_C3_witness :
    calculateAdjustments emptyState 0 0 = .error .preconditionFailed ∧
      exec emptyState (.calcOp 0 0) = emptyState :=
  calculateAdjustments_requires_prefs_C3 emptyState 0 0 rfl

/-- Claim C4: for every owner and in every state, resetPreferences succeeds
(also when nothing is stored), deletes both the preference record and the
adjustment record of that owner while leaving every other owner untouched,
emits PreferencesUpdated, and a subsequent calculateAdjustments for that
owner fails with the precondition failure. -/
theorem resetPreferences_deletes_C4 (s : State) (sender now now2 : Nat) :
    ∃ s2, resetPreferences s sender now = .ok (s2, [.PreferencesUpdated sender now]) ∧
      s2.userPreferences sender = none ∧
      s2.uiAdjustments sender = none ∧
      s2.userPreferences = (fun a => if a = sender then none else s.userPreferences a) ∧
      s2.uiAdjustments = (fun a => if a = sender then none else s.uiAdjustments a) ∧
      calculateAdjustments s2 sender now2 = .error .preconditionFailed := by
  refine ⟨_, rfl, by simp, by simp, rfl, rfl, ?_⟩
  have h2 : (⟨fun a => if a = sender then none else s.userPreferences a,
      fun a => if a = sender then none else s.uiAdjustments a⟩ : State).userPreferences sender
      = none := by simp
  unfold calculateAdjustments
  rw [h2]

/-- Counterexample for C5: a callback with a verified proof and a decodable
payload returns the state completely unchanged: nothing is stored on the
adjustment record of owner 1 (which still holds its old values), so no
revealed tuple is persisted and no request state becomes Verified. -/
theorem handleDecrypted_no_store_C5_counterexample :
    handleDecryptedAdjustments stateFull 1 [20, 12, 80, 0] true 1 9 =
      .ok (stateFull, [.UIAdjusted 1 9]) ∧
    stateFull.uiAdjustments 1 = some ⟨20, 12, 80, 0, 0⟩ := by
  constructor
  · rfl
  · rfl

/-- Claim C5 amended: for every callback whose proof verifies, the handler
decodes the cleartext payload into four 32-bit integers, failing with
Malformed when decoding fails; on successful decoding it emits UIAdjusted
and leaves the whole store unchanged (the contract persists no revealed
tuple and keeps no request state). -/
theorem handleDecrypted_valid_proof_C5 (s : State) (rid : Nat) (cs : List Nat)
    (sender now : Nat) :
    (∀ t, decode4 cs = some t →
      handleDecryptedAdjustments s rid cs true sender now = .ok (s, [.UIAdjusted sender now])) ∧
    (decode4 cs = none →
      handleDecryptedAdjustments s rid cs true sender now = .error .malformed) := by
  constructor
  · intro t ht
    unfold handleDecryptedAdjustments
    rw [ht]
    rfl
  · intro ht
    unfold handleDecryptedAdjustments
    rw [ht]
    rfl

/-- Witness for C5: a four-word payload is accepted with the state intact,
and a two-word payload fails with Malformed. -/
theorem handleDecrypted_valid_proof_C5_witness :
    handleDecryptedAdjustments stateFull 1 [20, 12, 80, 0] true 1 3 =
      .ok (stateFull, [.UIAdjusted 1 3]) ∧
    handleDecryptedAdjustments stateFull 1 [1, 2] true 1 3 = .error .malformed :=
  ⟨(handleDecrypted_valid_proof_C5 stateFull 1 [20, 12, 80, 0] 1 3).1 (20, 12, 80, 0)
      (by decide),
   (handleDecrypted_valid_proof_C5 stateFull 1 [1, 2] 1 3).2 (by decide)⟩

/-- Counterexample for C6: a callback with a forged proof reverts with
InvalidProof, but no request transitions to a terminal Rejected state: the
contract keeps no request bookkeeping at all, so a subsequent callback with
the same requestId is processed afresh and succeeds instead of failing with
UnknownRequest. -/
theorem handleDecrypted_forged_C6_counterexample :
    handleDecryptedAdjustments stateFull 7 [20, 12, 80, 0] false 1 11 =
      .error .invalidProof ∧
    handleDecryptedAdjustments stateFull 7 [20, 12, 80, 0] true 1 11 =
      .ok (stateFull, [.UIAdjusted 1 11]) ∧
    handleDecryptedAdjustments stateFull 7 [20, 12, 80, 0] true 1 11 ≠
      .error .unknownRequest := by
  refine ⟨rfl, rfl, ?_⟩
  intro h
  simp [handleDecryptedAdjustments, decode4, M32] at h

/-- Claim C6 amended: a callback carrying a forged proof fails with
InvalidProof and the reverted transaction mutates nothing, for any state,
requestId and payload; the contract keeps no per-request state, so there is
no Rejected transition and a later callback with the same requestId is not
rejected as UnknownRequest. -/
theorem handleDecrypted_forged_C6 (s : State) (rid : Nat) (cs : List Nat)
    (sender now : Nat) :
    handleDecryptedAdjustments s rid cs false sender now = .error .invalidProof ∧
    exec s (.callbackOp rid cs false sender now) = s := by
  constructor
  · rfl
  · rfl

/-- Claim C7: every public operation preserves the invariant that an
adjustment record exists for an owner only if a preference record exists
for the same owner (a reverted transaction trivially preserves it since it
leaves the state unchanged). -/
theorem invariant_preserved_C7 (s : State) (op : Op) (hs : StoreInv s) :
    StoreInv (exec s op) := by
  cases op with
  | submitOp sender v h m c now =>
    intro a ha
    simp only [exec, step, updatePreferences] at ha ⊢
    by_cases hsnd : a = sender
    · simp [hsnd]
    · simp only [if_neg hsnd]
      exact hs a ha
  | calcOp sender now =>
    intro a ha
    simp only [exec, step] at ha ⊢
    cases hp : s.userPreferences sender with
    | none =>
      unfold calculateAdjustments at ha ⊢
      rw [hp] at ha ⊢
      exact hs a ha
    | some p =>
      unfold calculateAdjustments at ha ⊢
      rw [hp] at ha ⊢
      by_cases hsnd : a = sender
      · simp only [hsnd]
        rw [hp]
        rfl
      · simp only [if_neg hsnd] at ha ⊢
        exact hs a ha
  | applyOp sender now =>
    intro a ha
    simp only [exec, step, applyUIAdjustments] at ha ⊢
    cases hadj : s.uiAdjustments sender with
    | none => rw [hadj] at ha; exact hs a ha
    | some adj => rw [hadj] at ha; exact hs a ha
  | requestOp sender =>
    intro a ha
    simp only [exec, step, requestAdjustmentDecryption] at ha ⊢
    cases hadj : s.uiAdjustments sender with
    | none => rw [hadj] at ha; exact hs a ha
    | some adj => rw [hadj] at ha; exact hs a ha
  | callbackOp rid cs pv sender now =>
    intro a ha
    simp only [exec, step, handleDecryptedAdjustments] at ha ⊢
    cases pv with
    | false => exact hs a (by simpa using ha)
    | true =>
      cases hd : decode4 cs with
      | none => rw [hd] at ha; exact hs a ha
      | some t => rw [hd] at ha; exact hs a ha
  | resetOp sender now =>
    intro a ha
    simp only [exec, step, resetPreferences] at ha ⊢
    by_cases hsnd : a = sender
    · simp [hsnd] at ha
    · simp only [if_neg hsnd] at ha ⊢
      exact hs a ha

/-- Witness for C7: the empty deployment satisfies the invariant and keeps
satisfying it after a reset operation. -/
theorem invariant_preserved_C7_witness :
    StoreInv emptyState ∧ StoreInv (exec emptyState (.resetOp 0 0)) :=
  ⟨fun a ha => by simp [emptyState] at ha,
   invariant_preserved_C7 emptyState (.resetOp 0 0) (fun a ha => by simp [emptyState] at ha)⟩

/-- Reading back the key just written returns the written blob. -/
theorem getData_setData_same (c : Catalog) (k : String) (b : Blob) :
    getData (setData c k b) k = some b := by
  simp [getData, setData]

/-- Writing one key leaves every other key unchanged. -/
theorem getData_setData_other (c : Catalog) (k : String) (b : Blob) (k2 : String)
    (h : k2 ≠ k) : getData (setData c k b) k2 = c.store k2 := by
  simp [getData, setData, h]

/-- Counterexample for C8: putting the same key twice leaves it twice in
the index blob, because the index update pushes the key with no membership
check; so the index does not contain the key exactly once. -/
theorem putBlob_duplicate_C8_counterexample :
    parseKeys (getData (putBlob (putBlob emptyCatalog "k" [1]) "k" [2]) "preference_keys") =
      ["k", "k"] ∧
    ¬ List.Nodup (parseKeys
      (getData (putBlob (putBlob emptyCatalog "k" [1]) "k" [2]) "preference_keys")) := by
  constructor
  · rfl
  · decide

/-- Claim C8 amended: putBlob appends the key to the index blob
unconditionally, with no absence check: after a put the parsed index is the
previous parsed index with the key pushed at the end, so a key put twice
appears twice; it appears exactly once only when put exactly once. -/
theorem putBlob_appends_unconditionally_C8 (c : Catalog) (k : String) (b : List Nat)
    (hk : "preference_" ++ k ≠ "preference_keys") :
    parseKeys (getData (putBlob c k b) "preference_keys") =
      parseKeys (getData c "preference_keys") ++ [k] := by
  simp only [putBlob]
  rw [getData_setData_same]
  rw [getData_setData_other _ _ _ _ (fun h => hk h.symm)]
  rfl

/-- Witness for C8: a single put of a fresh key on the empty catalog leaves
the index holding exactly that key. -/
theorem putBlob_appends_unconditionally_C8_witness :
    parseKeys (getData (putBlob emptyCatalog "x" [1]) "preference_keys") = ["x"] := by
  have h := putBlob_appends_unconditionally_C8 emptyCatalog "x" [1] (by decide)
  simpa using h

/-- Counterexample for C9: reading the adjustment record of an owner never
written does not fail with NotFound: the view returns the zero struct of
the Solidity mapping (all four handles and the timestamp zero). -/
theorem getAdjustments_default_C9_counterexample :
    getAdjustments emptyState 5 = (0, 0, 0, 0, 0) := rfl

/-- Claim C9 amended: reading the adjustment record of an owner with no
stored record returns the zero-initialized default tuple instead of
failing; absence is signalled by uninitialized (zero) handles, and the
frontend likewise treats a missing blob as empty bytes. -/
theorem getAdjustments_default_C9 (s : State) (user : Nat)
    (h : s.uiAdjustments user = none) :
    getAdjustments s user = (0, 0, 0, 0, 0) := by
  unfold getAdjustments
  rw [h]

/-- Witness for C9: a fresh deployment holds no record for owner 7 and the
view returns the zero tuple for it. -/
theorem getAdjustments_default_C9_witness :
    emptyState.uiAdjustments 7 = none ∧ getAdjustments emptyState 7 = (0, 0, 0, 0, 0) :=
  ⟨rfl, getAdjustments_default_C9 emptyState 7 rfl⟩

/-- Claim C10: the outputs of calculateAdjustments are independent of the
mobility setting: any two preference records agreeing on vision, hearing
and cognitive (mobility arbitrary) produce identical fontSize,
contrastRatio, volumeLevel and animationSpeed values. -/
theorem mobility_independent_C10 (s1 s2 : State) (a1 a2 n1 n2 : Nat)
    (p q : EncryptedPreferences)
    (h1 : s1.userPreferences a1 = some p) (h2 : s2.userPreferences a2 = some q)
    (hv : p.visionSettings = q.visionSettings)
    (hh : p.hearingSettings = q.hearingSettings)
    (hc : p.cognitiveSettings = q.cognitiveSettings) :
    ∃ t1 t2, calculateAdjustments s1 a1 n1 = .ok t1 ∧
      calculateAdjustments s2 a2 n2 = .ok t2 ∧
      ∃ r1 r2, t1.1.uiAdjustments a1 = some r1 ∧ t2.1.uiAdjustments a2 = some r2 ∧
        r1.fontSize = r2.fontSize ∧ r1.contrastRatio = r2.contrastRatio ∧
        r1.volumeLevel = r2.volumeLevel ∧ r1.animationSpeed = r2.animationSpeed := by
  unfold calculateAdjustments
  rw [h1, h2]
  refine ⟨_, _, rfl, rfl,
    ⟨⟨fheAdd defaultAdjustment.fontSize (fheDiv p.visionSettings 10),
      fheAdd defaultAdjustment.contrastRatio (fheDiv p.visionSettings 5),
      fheAdd defaultAdjustment.volumeLevel (fheDiv p.hearingSettings 2),
      fheSub defaultAdjustment.animationSpeed (fheDiv p.cognitiveSettings 10), n1⟩,
     ⟨fheAdd defaultAdjustment.fontSize (fheDiv q.visionSettings 10),
      fheAdd defaultAdjustment.contrastRatio (fheDiv q.visionSettings 5),
      fheAdd defaultAdjustment.volumeLevel (fheDiv q.hearingSettings 2),
      fheSub defaultAdjustment.animationSpeed (fheDiv q.cognitiveSettings 10), n2⟩,
     by simp, by simp, by rw [hv], by rw [hv], by rw [hh], by rw [hc]⟩⟩

/-- Witness for C10: two owners whose records differ only in mobility (0
against 99) obtain identical adjustment values. -/
theorem mobility_independent_C10_witness :
    ∃ t1 t2, calculateAdjustments stateC1 1 5 = .ok t1 ∧
      calculateAdjustments stateMob 3 6 = .ok t2 ∧
      ∃ r1 r2, t1.1.uiAdjustments 1 = some r1 ∧ t2.1.uiAdjustments 3 = some r2 ∧
        r1.fontSize = r2.fontSize ∧ r1.contrastRatio = r2.contrastRatio ∧
        r1.volumeLevel = r2.volumeLevel ∧ r1.animationSpeed = r2.animationSpeed :=
  mobility_independent_C10 stateC1 stateMob 1 3 5 6 ⟨40, 60, 0, 30, 0⟩ ⟨40, 60, 99, 30, 0⟩
    rfl rfl rfl rfl rfl
